import Mathlib

/-!
Shallow embedding of the SIWE OAuth authenticated-fetch client
(`stephancill/eth-private-data-repo-client`).

The repository carries three near-duplicate copies of the orchestration
logic:

* `authFetch` / `createAuthFetch` (the `siwe-auth-fetch` package, two
  behaviourally identical copies for a single invocation); and
* `fetchWithOAuth` (the example app's `oauth.ts`).

We embed each JavaScript function as an executable Lean definition.
External effects (the `fetch` transport, the wallet signer, the
`onToken` callback) are modelled by an explicit `World` of oracles,
and every externally observable call is recorded in an event trace.
Machine-level JavaScript notions (truthiness, `parseInt`, `NaN`,
`String.prototype.replace`, `String.prototype.split`) are modelled
explicitly below, each next to the source construct it embeds.
-/

namespace SiweAuth

/-! ## JavaScript primitives used by the source -/

/-- JS truthiness of a possibly-undefined string (`undefined` and `""` are
falsy).  Models guards such as `if (token)` and `!params.realm`. -/
def jsTruthyS : Option String → Bool
  | none => false
  | some s => !(s == "")

/-- JS `a || b` for a possibly-undefined string `a` (falsy selects `b`).
Models e.g. `params.signing_scheme || "eip4361"`. -/
def jsOrS : Option String → String → String
  | none, d => d
  | some s, d => if s == "" then d else s

/-- JS `a || b` where `a` is a number that may be `NaN` (modelled as
`none`); `NaN` and `0` are falsy.  Models `challenge.chainId || chainId`. -/
def jsOrI : Option Int → Int → Int
  | none, d => d
  | some n, d => if n = 0 then d else n

/-- Value of a run of decimal digits, most significant first. -/
def digitsVal (ds : List Char) : Int :=
  ds.foldl (fun a c => a * 10 + ((c.toNat - '0'.toNat : Nat) : Int)) 0

/-- JS `parseInt(s, 10)`: skip leading whitespace, optional sign, then a
maximal run of decimal digits; `none` models `NaN` (no digits found). -/
def jsParseInt10 (s : String) : Option Int :=
  let l := s.data.dropWhile fun c => c = ' ' || c = '\t' || c = '\n' || c = '\r'
  let signAndRest : Int × List Char :=
    match l with
    | '-' :: r => (-1, r)
    | '+' :: r => (1, r)
    | r => (1, r)
  let ds := signAndRest.2.takeWhile Char.isDigit
  if ds.isEmpty then none else some (signAndRest.1 * digitsVal ds)

/-- JS `\w`: ASCII letters, digits, underscore. -/
def isWordChar (c : Char) : Bool :=
  c.isAlphanum || c = '_'

/-- JS `str.split(" ")` (single-character separator): split at every
space, keeping empty segments. -/
def jsSplitSpaceAux : List Char → List Char → List String
  | [], acc => [acc.reverse.asString]
  | c :: rest, acc =>
    if c = ' ' then acc.reverse.asString :: jsSplitSpaceAux rest []
    else jsSplitSpaceAux rest (c :: acc)

/-- JS `str.split(" ")` on a string. -/
def jsSplitSpace (s : String) : List String :=
  jsSplitSpaceAux s.data []

/-- One attempt of the regex `/(\w+)="([^"]+)"/` anchored at the head of
`l`: a nonempty run of word characters, then `="`, then a nonempty run of
non-quote characters, then `"`.  Returns the key, the value and the
remaining input after the closing quote. -/
def tryMatch (l : List Char) : Option (String × String × List Char) :=
  let run := l.takeWhile isWordChar
  if run.isEmpty then none
  else
    match l.dropWhile isWordChar with
    | '=' :: '"' :: vrest =>
      let v := vrest.takeWhile fun c => !(c = '"')
      if v.isEmpty then none
      else
        match vrest.dropWhile (fun c => !(c = '"')) with
        | '"' :: tail => some (run.asString, v.asString, tail)
        | _ => none
    | _ => none

/-- Global scan of the regex `/(\w+)="([^"]+)"/g`: try a match at each
position left to right; after a successful match continue after its
closing quote (the engine's `lastIndex`).  Fuelled structurally; the
fuel is the length of the input, which suffices since every step
consumes at least one character. -/
def scanKVFuel : Nat → List Char → List (String × String)
  | 0, _ => []
  | _ + 1, [] => []
  | fuel + 1, c :: rest =>
    match tryMatch (c :: rest) with
    | some (k, v, tail) => (k, v) :: scanKVFuel fuel tail
    | none => scanKVFuel fuel rest

/-- All matches of `/(\w+)="([^"]+)"/g` over the input, in order. -/
def scanKV (l : List Char) : List (String × String) :=
  scanKVFuel l.length l

/-- The mutable `params` record: `params[match[1]] = match[2]` applied in
match order, starting from the empty record; lookup of a key yields the
value last assigned to it, or `none` (undefined). -/
def buildParams (ms : List (String × String)) : String → Option String :=
  ms.foldl (fun acc kv => fun q => if q == kv.1 then some kv.2 else acc q)
    (fun _ => none)

/-! ## Data model (from the source interfaces) -/

/-- `OAuthChallenge` (identical in all three copies).  `chainId : Option Int`
models a JS number that may be `NaN` (`none`). -/
structure OAuthChallenge where
  realm : String
  scope : String
  tokenUri : String
  chainId : Option Int
  signingScheme : String
  deriving DecidableEq, Repr

/-- `TokenResponse` (identical in all three copies). -/
structure TokenResponse where
  access_token : String
  token_type : String
  expires_in : Int
  scope : String
  deriving DecidableEq, Repr

/-- `parseWWWAuthenticateChallenge` (package copy at part_003 lines 37-58
and 251-273, app copy at part_001 lines 33-59; all identical up to the
default chain id constant, which is `1` in each).  Scans the header for
`key="value"` pairs, collects them last-match-wins, and returns the
challenge only when `realm`, `scope` and `token_uri` are all truthy. -/
def parseWWWAuthenticateChallenge (header : String) : Option OAuthChallenge :=
  let params := buildParams (scanKV header.data)
  if !(jsTruthyS (params "realm")) || !(jsTruthyS (params "scope")) ||
      !(jsTruthyS (params "token_uri")) then
    none
  else
    some
      { realm := (params "realm").getD ""
        scope := (params "scope").getD ""
        tokenUri := (params "token_uri").getD ""
        chainId :=
          if jsTruthyS (params "chain_id") then
            jsParseInt10 ((params "chain_id").getD "")
          else some 1
        signingScheme := jsOrS (params "signing_scheme") "eip4361" }

/-! ## URL helpers -/

/-- Whether `l` starts with `pat`. -/
def leadsWith : List Char → List Char → Bool
  | [], _ => true
  | _ :: _, [] => false
  | p :: ps, c :: cs => p == c && leadsWith ps cs

/-- JS `l.replace(pat, repl)` with a string pattern: replace the first
occurrence of `pat`, or return the input unchanged when `pat` does not
occur (JS replaces the empty pattern at position 0). -/
def replaceFirstL (l pat repl : List Char) : List Char :=
  match l with
  | [] => if pat.isEmpty then repl else []
  | c :: rest =>
    if leadsWith pat (c :: rest) then repl ++ (c :: rest).drop pat.length
    else c :: replaceFirstL rest pat repl

/-- Whether `pat` occurs as a contiguous substring of `l`. -/
def hasSub (l pat : List Char) : Bool :=
  (List.range (l.length + 1)).any fun n => leadsWith pat (l.drop n)

/-- Nonce URL derivation of the package `fetchNonce` (part_003 lines
63-65 and 278-280): `tokenUri.replace("/token", "/nonce")`. -/
def nonceUrlPkg (tokenUri : String) : String :=
  (replaceFirstL tokenUri.data "/token".data "/nonce".data).asString

/-- Nonce URL derivation of the app `fetchNonce` (part_001 lines 92-96):
`tokenUri.replace("/token", "")` followed by appending `"/nonce"`. -/
def nonceUrlApp (tokenUri : String) : String :=
  (replaceFirstL tokenUri.data "/token".data [] ++ "/nonce".data).asString

/-- Suffix of `l` after the first occurrence of `pat` (`none` when `pat`
does not occur). -/
def afterSub (l pat : List Char) : Option (List Char) :=
  match l with
  | [] => if pat.isEmpty then some [] else none
  | c :: rest =>
    if leadsWith pat (c :: rest) then some ((c :: rest).drop pat.length)
    else afterSub rest pat

/-- Model of the external `new URL(uri).host` used by both
`buildSiweMessage` copies: the authority component between `"://"` and
the next `/`, `?` or `#`.  (The real URL constructor throws on invalid
URLs and normalises the host; no claim depends on that, and the claims
never exercise invalid request URLs.) -/
def urlHost (uri : String) : String :=
  match afterSub uri.data "://".data with
  | some rest =>
    (rest.takeWhile fun c => !(c = '/' || c = '?' || c = '#')).asString
  | none => ""

/-! ## SIWE message construction -/

/-- The argument record handed to the external `createSiweMessage` from
`viem/siwe`.  The rendered EIP-4361 text is produced by that external
library (together with a build-time `Issued At` timestamp), so the
record of inputs is the observable interface of the message builder. -/
structure SiweMessage where
  address : String
  chainId : Int
  domain : String
  nonce : String
  uri : String
  version : String
  statement : String
  resources : List String
  deriving DecidableEq, Repr

/-- `CHAIN_ID` constant of the app's `oauth.ts` (part_001 line 7). -/
def CHAIN_ID : Int := 1

/-- Package `buildSiweMessage` (part_003 lines 76-96 and 291-311): takes
the chain id as a parameter. -/
def buildSiweMessagePkg (address : String) (nonce : String)
    (scopes : List String) (uri : String) (chainId : Int) : SiweMessage :=
  { address := address
    chainId := chainId
    domain := urlHost uri
    nonce := nonce
    uri := uri
    version := "1"
    statement := "Authorize access to your private data."
    resources := scopes.map fun scope => "urn:oauth:scope:" ++ scope }

/-- App `buildSiweMessage` (part_001 lines 64-87): always uses the
module constant `CHAIN_ID = 1`; it has no chain-id parameter. -/
def buildSiweMessageApp (address : String) (nonce : String)
    (scopes : List String) (uri : String) : SiweMessage :=
  { address := address
    chainId := CHAIN_ID
    domain := urlHost uri
    nonce := nonce
    uri := uri
    version := "1"
    statement := "Authorize access to your private data."
    resources := scopes.map fun scope => "urn:oauth:scope:" ++ scope }

/-! ## HTTP world and event traces -/

/-- A completed HTTP response of the protected resource.  `body` is the
JSON-parsed payload viewed opaquely (`none`: `response.json()` rejects);
`wwwAuthenticate` is `response.headers.get("WWW-Authenticate")`. -/
structure MainResp where
  status : Nat
  wwwAuthenticate : Option String
  body : Option String
  deriving DecidableEq, Repr

/-- A completed response of the nonce endpoint; `nonce` is the `nonce`
field of the JSON body (`none`: the body fails to parse). -/
structure NonceHttpResp where
  status : Nat
  nonce : Option String
  deriving DecidableEq, Repr

instance exceptDecEq {ε α : Type} [DecidableEq ε] [DecidableEq α] :
    DecidableEq (Except ε α) := fun x y =>
  match x, y with
  | .ok a, .ok b =>
    if h : a = b then .isTrue (by rw [h]) else .isFalse (by simp [h])
  | .error a, .error b =>
    if h : a = b then .isTrue (by rw [h]) else .isFalse (by simp [h])
  | .ok _, .error _ => .isFalse (by simp)
  | .error _, .ok _ => .isFalse (by simp)

/-- A completed response of the token endpoint.  `errorJson` describes
`response.json()` on the error path (`Except.error ()`: the body fails
to parse; `Except.ok e`: it parses and `e` is its optional `error`
field); `token` is the parsed success body. -/
structure ExchangeHttpResp where
  status : Nat
  errorJson : Except Unit (Option String)
  token : Option TokenResponse
  deriving DecidableEq, Repr

/-- `response.ok`: status in the 2xx range. -/
def respOk (status : Nat) : Bool :=
  decide (200 ≤ status ∧ status < 300)

/-- A surfaced JavaScript failure: a thrown `Error` with its message, a
rejected `fetch` (transport), a rejected `response.json()`, or a
rejected signer call. -/
inductive JsError where
  | jsError (msg : String)
  | transport
  | jsonError
  | signerError
  deriving DecidableEq, Repr

/-- Externally observable calls of one orchestrator invocation, with the
arguments the source passes at each call site. -/
inductive Event where
  | fetchMain (url : String) (auth : Option String)
  | parseCall (header : String)
  | nonceCall (url : String)
  | signCall (msg : SiweMessage)
  | exchangeCall (url : String) (grantType : String) (message : SiweMessage)
      (signature : String) (scope : String)
  | onTokenCall (tok : String) (scope : String)
  | retryCall (url : String) (auth : Option String)
  deriving DecidableEq, Repr

/-- Oracles for the five suspension points of one invocation, in call
order: the first resource fetch, the nonce fetch, the signer, the token
exchange and the retried resource fetch.  `Except.error ()` at an HTTP
oracle is a transport-level rejection; at the signer it is a declined
signature. -/
structure World where
  first : Except Unit MainResp
  nonceHttp : Except Unit NonceHttpResp
  sig : SiweMessage → Except Unit String
  exch : Except Unit ExchangeHttpResp
  retry : Except Unit MainResp

/-- The `Authorization` header value attached for a possibly-absent
token: `if (token) headers.set("Authorization", "Bearer " + token)`. -/
def authHeaderFor (token : Option String) : Option String :=
  if jsTruthyS token then some ("Bearer " ++ token.getD "") else none

/-- Error message of the package `exchangeToken` on a non-ok exchange
status (part_003 lines 118-121): the body's `error` field when the body
parses and the field is truthy, else a status-derived fallback; a parse
failure is swallowed by `.catch(() => ({}))`. -/
def exchangeErrMsgPkg (er : ExchangeHttpResp) : String :=
  let fb := "Token exchange failed: " ++ toString er.status
  match er.errorJson with
  | .error _ => fb
  | .ok ef => jsOrS ef fb

/-- Caller-supplied options of `authFetch` / `createAuthFetch`
(part_003 `AuthFetchOptions`): address, optional chain id (destructured
with default `1`), optional existing token, and whether an `onToken`
callback was supplied (`onToken?.(...)` is a call only when present). -/
structure AuthOptions where
  address : String
  chainId : Option Int
  token : Option String
  hasOnToken : Bool

/-- One invocation of the package orchestrator: `authFetch` (part_003
lines 141-216) and, identically for a single call, the function returned
by `createAuthFetch` (part_003 lines 356-430) with `opts.token` as the
current token (the one-shot `authFetch` of the second copy, lines
443-456, delegates to `createAuthFetch`).  Returns the surfaced result
(`Except`: a thrown/rejected error, or the final `Response`) together
with the trace of external calls in program order. -/
def authFetchM (opts : AuthOptions) (w : World) (url : String) :
    Except JsError MainResp × List Event :=
  let auth := authHeaderFor opts.token
  match w.first with
  | .error _ => (.error .transport, [.fetchMain url auth])
  | .ok resp =>
    if resp.status = 401 then
      if jsTruthyS resp.wwwAuthenticate then
        let wa := resp.wwwAuthenticate.getD ""
        let base := [Event.fetchMain url auth, Event.parseCall wa]
        match parseWWWAuthenticateChallenge wa with
        | none => (.ok resp, base)
        | some ch =>
          if ch.signingScheme = "eip4361" then
            let nonceUrl := nonceUrlPkg ch.tokenUri
            let e1 := base ++ [Event.nonceCall nonceUrl]
            match w.nonceHttp with
            | .error _ => (.error .transport, e1)
            | .ok nr =>
              if respOk nr.status then
                match nr.nonce with
                | none => (.error .jsonError, e1)
                | some nval =>
                  let scopes := jsSplitSpace ch.scope
                  let m := buildSiweMessagePkg opts.address nval scopes url
                    (jsOrI ch.chainId (opts.chainId.getD 1))
                  let e2 := e1 ++ [Event.signCall m]
                  match w.sig m with
                  | .error _ => (.error .signerError, e2)
                  | .ok sigv =>
                    let e3 := e2 ++
                      [Event.exchangeCall ch.tokenUri "eth_signature" m sigv ch.scope]
                    match w.exch with
                    | .error _ => (.error .transport, e3)
                    | .ok er =>
                      if respOk er.status then
                        match er.token with
                        | none => (.error .jsonError, e3)
                        | some tr =>
                          let e4 := e3 ++
                            (if opts.hasOnToken then
                              [Event.onTokenCall tr.access_token tr.scope]
                            else [])
                          let e5 := e4 ++
                            [Event.retryCall url (some ("Bearer " ++ tr.access_token))]
                          match w.retry with
                          | .error _ => (.error .transport, e5)
                          | .ok r2 => (.ok r2, e5)
                      else (.error (.jsError (exchangeErrMsgPkg er)), e3)
              else
                (.error (.jsError ("Failed to fetch nonce: " ++ toString nr.status)), e1)
          else
            (.error (.jsError ("Unsupported signing scheme: " ++ ch.signingScheme)), base)
      else (.ok resp, [.fetchMain url auth])
    else (.ok resp, [.fetchMain url auth])

/-- One invocation of the app orchestrator `fetchWithOAuth` (part_001
lines 139-213).  Unlike the package copies it throws on a 401 without a
usable challenge, derives the nonce URL by delete-and-append, always
builds the SIWE message with `CHAIN_ID = 1`, throws when the retried
(or a non-401 first) response is not ok, and resolves to the parsed
JSON body paired with the token rather than the raw response. -/
def fetchWithOAuthM (address : String) (existingToken : Option String)
    (w : World) (url : String) :
    Except JsError (String × String) × List Event :=
  let auth := authHeaderFor existingToken
  match w.first with
  | .error _ => (.error .transport, [.fetchMain url auth])
  | .ok resp =>
    if resp.status = 401 then
      if jsTruthyS resp.wwwAuthenticate then
        let wa := resp.wwwAuthenticate.getD ""
        let base := [Event.fetchMain url auth, Event.parseCall wa]
        match parseWWWAuthenticateChallenge wa with
        | none =>
          (.error (.jsError "Failed to parse WWW-Authenticate challenge"), base)
        | some ch =>
          if ch.signingScheme = "eip4361" then
            let nonceUrl := nonceUrlApp ch.tokenUri
            let e1 := base ++ [Event.nonceCall nonceUrl]
            match w.nonceHttp with
            | .error _ => (.error .transport, e1)
            | .ok nr =>
              if respOk nr.status then
                match nr.nonce with
                | none => (.error .jsonError, e1)
                | some nval =>
                  let scopes := jsSplitSpace ch.scope
                  let m := buildSiweMessageApp address nval scopes url
                  let e2 := e1 ++ [Event.signCall m]
                  match w.sig m with
                  | .error _ => (.error .signerError, e2)
                  | .ok sigv =>
                    let e3 := e2 ++
                      [Event.exchangeCall ch.tokenUri "eth_signature" m sigv ch.scope]
                    match w.exch with
                    | .error _ => (.error .transport, e3)
                    | .ok er =>
                      if respOk er.status then
                        match er.token with
                        | none => (.error .jsonError, e3)
                        | some tr =>
                          let e4 := e3 ++
                            [Event.retryCall url (some ("Bearer " ++ tr.access_token))]
                          match w.retry with
                          | .error _ => (.error .transport, e4)
                          | .ok r2 =>
                            if respOk r2.status then
                              match r2.body with
                              | none => (.error .jsonError, e4)
                              | some d => (.ok (d, tr.access_token), e4)
                            else
                              (.error (.jsError
                                ("Request failed after auth: " ++ toString r2.status)), e4)
                      else
                        match er.errorJson with
                        | .error _ => (.error .jsonError, e3)
                        | .ok ef =>
                          (.error (.jsError
                            (jsOrS ef ("Token exchange failed: " ++ toString er.status))), e3)
              else
                (.error (.jsError ("Failed to fetch nonce: " ++ toString nr.status)), e1)
          else
            (.error (.jsError ("Unsupported signing scheme: " ++ ch.signingScheme)), base)
      else
        (.error (.jsError "Missing WWW-Authenticate header in 401 response"),
          [.fetchMain url auth])
    else
      if respOk resp.status then
        match resp.body with
        | none => (.error .jsonError, [.fetchMain url auth])
        | some d => (.ok (d, jsOrS existingToken ""), [.fetchMain url auth])
      else
        (.error (.jsError ("Request failed: " ++ toString resp.status)),
          [.fetchMain url auth])

/-! ## Concrete fixtures used by witnesses and counterexamples -/

/-- A well-formed challenge header with two scopes. -/
def waGood : String :=
  "Bearer realm=\"r\", scope=\"a b\", token_uri=\"https://s/api/auth/token\""

/-- A challenge header with an unsupported signing scheme. -/
def waScheme : String :=
  "realm=\"r\" scope=\"a\" token_uri=\"t\" signing_scheme=\"unknownscheme\""

/-- A 401 header that carries no `key="value"` challenge parameters. -/
def waBad : String := "Bearer error=\"invalid_token\""

/-- The token response granted in the happy-path fixture. -/
def trGood : TokenResponse :=
  { access_token := "T1", token_type := "Bearer", expires_in := 3600,
    scope := "a b" }

/-- The first 401 response of the happy-path fixture. -/
def respChallenge : MainResp :=
  { status := 401, wwwAuthenticate := some waGood, body := none }

/-- The 2xx response served on the retry of the happy-path fixture. -/
def respRetryOk : MainResp :=
  { status := 200, wwwAuthenticate := none, body := some "D" }

/-- A 500 response without a body, served on the retry. -/
def respRetry500 : MainResp :=
  { status := 500, wwwAuthenticate := none, body := none }

/-- Happy path: first fetch 401 with a good challenge, nonce and
exchange succeed, retry succeeds. -/
def wHappy : World :=
  { first := .ok respChallenge
    nonceHttp := .ok { status := 200, nonce := some "N1" }
    sig := fun _ => .ok "0xSIG"
    exch := .ok { status := 200, errorJson := .ok none, token := some trGood }
    retry := .ok respRetryOk }

/-- Happy path up to the exchange, but the retried request fails with
status 500. -/
def wRetry500 : World := { wHappy with retry := .ok respRetry500 }

/-- First fetch yields 401 without a `WWW-Authenticate` header. -/
def w401NoWA : World :=
  { wHappy with first := .ok { status := 401, wwwAuthenticate := none, body := none } }

/-- First fetch yields 401 with an unparseable `WWW-Authenticate`. -/
def w401Bad : World :=
  { wHappy with first := .ok { status := 401, wwwAuthenticate := some waBad, body := none } }

/-- First fetch yields a plain 403 (no challenge involved). -/
def w403 : World :=
  { wHappy with first := .ok { status := 403, wwwAuthenticate := none, body := some "E" } }

/-- First fetch yields a plain 200. -/
def w200 : World :=
  { wHappy with first := .ok { status := 200, wwwAuthenticate := none, body := some "OK" } }

/-- First fetch yields 401 with the unsupported-scheme challenge. -/
def wScheme : World :=
  { wHappy with first := .ok { status := 401, wwwAuthenticate := some waScheme, body := none } }

/-- Options of the happy-path caller (an `onToken` sink is supplied). -/
def optsHappy : AuthOptions :=
  { address := "0xA", chainId := none, token := none, hasOnToken := true }

/-! ## Lemmas about the parameter map -/

theorem foldParams_apply (ms : List (String × String))
    (base : String → Option String) (k : String) :
    (ms.foldl (fun acc kv => fun q => if q == kv.1 then some kv.2 else acc q)
        base) k =
      (ms.reverse.find? fun p => p.1 == k).elim (base k) (fun p => some p.2) := by
  induction ms generalizing base with
  | nil => simp
  | cons p rest ih =>
    rw [List.foldl_cons, ih, List.reverse_cons, List.find?_append]
    cases h : rest.reverse.find? (fun q => q.1 == k) with
    | some q => simp [h]
    | none =>
      by_cases hpk : p.1 = k
      · simp [h, hpk]
      · simp [h, hpk, Ne.symm hpk]

theorem buildParams_apply (ms : List (String × String)) (k : String) :
    buildParams ms k =
      (ms.reverse.find? fun p => p.1 == k).elim none (fun p => some p.2) :=
  foldParams_apply ms (fun _ => none) k

theorem buildParams_eq_none {ms : List (String × String)} {k : String}
    (h : ¬ ∃ v, (k, v) ∈ ms) : buildParams ms k = none := by
  rw [buildParams_apply]
  have hf : ms.reverse.find? (fun p => p.1 == k) = none := by
    rw [List.find?_eq_none]
    intro x hx hbeq
    rw [List.mem_reverse] at hx
    exact h ⟨x.2, by
      have hx1 : x.1 = k := by simpa using hbeq
      cases x
      simp only at hx1
      rw [← hx1]
      exact hx⟩
  simp [hf]

theorem buildParams_some_mem {ms : List (String × String)} {k v : String}
    (h : buildParams ms k = some v) : (k, v) ∈ ms := by
  rw [buildParams_apply] at h
  cases hf : ms.reverse.find? (fun p => p.1 == k) with
  | none => simp [hf] at h
  | some p =>
    have hv : p.2 = v := by simpa [hf] using h
    have hp1 : p.1 = k := by simpa using List.find?_some hf
    have hmem : p ∈ ms := List.mem_reverse.mp (List.mem_of_find?_eq_some hf)
    have : p = (k, v) := by cases p; simp_all
    rwa [this] at hmem

theorem buildParams_eq_none_of_find {ms : List (String × String)} {k : String}
    (h : ms.find? (fun p => p.1 == k) = none) : buildParams ms k = none := by
  rw [buildParams_apply]
  have hr : ms.reverse.find? (fun p => p.1 == k) = none := by
    rw [List.find?_eq_none] at h ⊢
    intro x hx
    exact h x (List.mem_reverse.mp hx)
  simp [hr]

theorem find_ne_none_of_buildParams_some {ms : List (String × String)}
    {k v : String} (h : buildParams ms k = some v) :
    ms.find? (fun p => p.1 == k) ≠ none := by
  intro hn
  rw [buildParams_eq_none_of_find hn] at h
  exact Option.noConfusion h

theorem jsTruthyS_true {o : Option String} (h : jsTruthyS o = true) :
    ∃ s, o = some s ∧ s ≠ "" := by
  cases o with
  | none => simp [jsTruthyS] at h
  | some s => exact ⟨s, rfl, by simpa [jsTruthyS] using h⟩

theorem parse_none_of_untruthy {header : String}
    (h : jsTruthyS (buildParams (scanKV header.data) "realm") = false ∨
         jsTruthyS (buildParams (scanKV header.data) "scope") = false ∨
         jsTruthyS (buildParams (scanKV header.data) "token_uri") = false) :
    parseWWWAuthenticateChallenge header = none := by
  unfold parseWWWAuthenticateChallenge
  rcases h with h | h | h <;> simp [h]

/-- Structure of a successful parse: the required keys are truthy and
every challenge field is the corresponding parameter lookup. -/
theorem parse_some_params {header : String} {ch : OAuthChallenge}
    (h : parseWWWAuthenticateChallenge header = some ch) :
    jsTruthyS (buildParams (scanKV header.data) "realm") = true ∧
    jsTruthyS (buildParams (scanKV header.data) "scope") = true ∧
    jsTruthyS (buildParams (scanKV header.data) "token_uri") = true ∧
    ch.realm = (buildParams (scanKV header.data) "realm").getD "" ∧
    ch.scope = (buildParams (scanKV header.data) "scope").getD "" ∧
    ch.tokenUri = (buildParams (scanKV header.data) "token_uri").getD "" ∧
    ch.chainId = (if jsTruthyS (buildParams (scanKV header.data) "chain_id") then
        jsParseInt10 ((buildParams (scanKV header.data) "chain_id").getD "")
      else some 1) ∧
    ch.signingScheme = jsOrS (buildParams (scanKV header.data) "signing_scheme") "eip4361" := by
  unfold parseWWWAuthenticateChallenge at h
  by_cases h1 : jsTruthyS (buildParams (scanKV header.data) "realm") = true
  · by_cases h2 : jsTruthyS (buildParams (scanKV header.data) "scope") = true
    · by_cases h3 : jsTruthyS (buildParams (scanKV header.data) "token_uri") = true
      · simp only [h1, h2, h3, Bool.not_true, Bool.or_self, Bool.false_or,
          Bool.false_eq_true, if_false] at h
        obtain rfl := Option.some.inj h
        exact ⟨h1, h2, h3, rfl, rfl, rfl, rfl, rfl⟩
      · simp [h1, h2, h3] at h
    · simp [h1, h2] at h
  · simp [h1] at h

/-- Claim C7: `parseWWWAuthenticateChallenge` yields no challenge
(`none`, not an error) whenever any of `realm`, `scope`, `token_uri` is
not present as a `key="value"` pair in the header (the key-value scan
finds no pair with that key), and yields a challenge only when all
three are present. -/
theorem C7_missing_required_keys (header : String) :
    (((scanKV header.data).find? (fun p => p.1 == "realm") = none ∨
      (scanKV header.data).find? (fun p => p.1 == "scope") = none ∨
      (scanKV header.data).find? (fun p => p.1 == "token_uri") = none) →
      parseWWWAuthenticateChallenge header = none) ∧
    (∀ ch, parseWWWAuthenticateChallenge header = some ch →
      ((scanKV header.data).find? (fun p => p.1 == "realm") ≠ none ∧
       (scanKV header.data).find? (fun p => p.1 == "scope") ≠ none ∧
       (scanKV header.data).find? (fun p => p.1 == "token_uri") ≠ none)) := by
  constructor
  · intro h
    apply parse_none_of_untruthy
    rcases h with h | h | h
    · exact Or.inl (by rw [buildParams_eq_none_of_find h]; rfl)
    · exact Or.inr (Or.inl (by rw [buildParams_eq_none_of_find h]; rfl))
    · exact Or.inr (Or.inr (by rw [buildParams_eq_none_of_find h]; rfl))
  · intro ch h
    obtain ⟨h1, h2, h3, _⟩ := parse_some_params h
    obtain ⟨s1, hs1, _⟩ := jsTruthyS_true h1
    obtain ⟨s2, hs2, _⟩ := jsTruthyS_true h2
    obtain ⟨s3, hs3, _⟩ := jsTruthyS_true h3
    exact ⟨find_ne_none_of_buildParams_some hs1,
      find_ne_none_of_buildParams_some hs2,
      find_ne_none_of_buildParams_some hs3⟩

/-- Claim C7 witness: a header carrying `scope` and `token_uri` but no
`realm` pair parses to `none`, and a complete header parses to a
challenge whose three required keys all occur in the scan. -/
theorem C7_witness :
    parseWWWAuthenticateChallenge "Bearer scope=\"a\", token_uri=\"t\"" = none ∧
    ((scanKV ("realm=\"r\" scope=\"a\" token_uri=\"t\"").data).find?
        (fun p => p.1 == "realm") ≠ none ∧
     (scanKV ("realm=\"r\" scope=\"a\" token_uri=\"t\"").data).find?
        (fun p => p.1 == "scope") ≠ none ∧
     (scanKV ("realm=\"r\" scope=\"a\" token_uri=\"t\"").data).find?
        (fun p => p.1 == "token_uri") ≠ none) :=
  ⟨(C7_missing_required_keys "Bearer scope=\"a\", token_uri=\"t\"").1
      (Or.inl (by decide)),
   (C7_missing_required_keys "realm=\"r\" scope=\"a\" token_uri=\"t\"").2
      { realm := "r", scope := "a", tokenUri := "t", chainId := some 1,
        signingScheme := "eip4361" } (by decide)⟩

/-- Claim C8: later duplicate keys overwrite earlier ones.  The
parameter map the parser consults sends every key to the value of its
last scanned occurrence (`reverse.find?`), and the fields of a parsed
challenge carry those last-occurrence values. -/
theorem C8_last_occurrence_wins (header : String) :
    (∀ k, buildParams (scanKV header.data) k =
      ((scanKV header.data).reverse.find? fun p => p.1 == k).elim none
        (fun p => some p.2)) ∧
    (∀ ch, parseWWWAuthenticateChallenge header = some ch →
      (((scanKV header.data).reverse.find? fun p => p.1 == "realm").elim none
          (fun p => some p.2) = some ch.realm ∧
       ((scanKV header.data).reverse.find? fun p => p.1 == "scope").elim none
          (fun p => some p.2) = some ch.scope ∧
       ((scanKV header.data).reverse.find? fun p => p.1 == "token_uri").elim none
          (fun p => some p.2) = some ch.tokenUri)) := by
  constructor
  · exact fun k => buildParams_apply _ k
  · intro ch h
    obtain ⟨h1, h2, h3, e1, e2, e3, _⟩ := parse_some_params h
    obtain ⟨s1, hs1, _⟩ := jsTruthyS_true h1
    obtain ⟨s2, hs2, _⟩ := jsTruthyS_true h2
    obtain ⟨s3, hs3, _⟩ := jsTruthyS_true h3
    refine ⟨?_, ?_, ?_⟩
    · rw [← buildParams_apply, hs1, e1, hs1]; rfl
    · rw [← buildParams_apply, hs2, e2, hs2]; rfl
    · rw [← buildParams_apply, hs3, e3, hs3]; rfl

/-- Claim C8 witness: in a header with two `realm` pairs the parsed
challenge's realm is the second (`"y"`), and the duplicate-key lookup of
the parameter map agrees with the last-occurrence rule. -/
theorem C8_witness :
    (((scanKV ("realm=\"x\" realm=\"y\" scope=\"a\" token_uri=\"t\"").data).reverse.find?
        fun p => p.1 == "realm").elim none (fun p => some p.2) = some "y" ∧
     ((scanKV ("realm=\"x\" realm=\"y\" scope=\"a\" token_uri=\"t\"").data).reverse.find?
        fun p => p.1 == "scope").elim none (fun p => some p.2) = some "a" ∧
     ((scanKV ("realm=\"x\" realm=\"y\" scope=\"a\" token_uri=\"t\"").data).reverse.find?
        fun p => p.1 == "token_uri").elim none (fun p => some p.2) = some "t") ∧
    buildParams (scanKV ("realm=\"x\" realm=\"y\" scope=\"a\" token_uri=\"t\"").data) "realm" =
      ((scanKV ("realm=\"x\" realm=\"y\" scope=\"a\" token_uri=\"t\"").data).reverse.find?
        fun p => p.1 == "realm").elim none (fun p => some p.2) :=
  ⟨(C8_last_occurrence_wins "realm=\"x\" realm=\"y\" scope=\"a\" token_uri=\"t\"").2
      { realm := "y", scope := "a", tokenUri := "t", chainId := some 1,
        signingScheme := "eip4361" } (by decide),
   (C8_last_occurrence_wins "realm=\"x\" realm=\"y\" scope=\"a\" token_uri=\"t\"").1 "realm"⟩

/-- Claim C6: a parsed challenge whose signing scheme is not
`"eip4361"` makes both orchestrators fail immediately with the
`Unsupported signing scheme` error; the recorded events are only the
first fetch and the parser call — no nonce fetch, no signer call, no
token-exchange call. -/
theorem C6_unsupported_scheme_fails
    (opts : AuthOptions) (address : String) (tok : Option String)
    (w w2 : World) (url url2 : String) (resp resp2 : MainResp)
    (wa wa2 : String) (ch ch2 : OAuthChallenge) :
    (w.first = .ok resp → resp.status = 401 →
     resp.wwwAuthenticate = some wa → jsTruthyS (some wa) = true →
     parseWWWAuthenticateChallenge wa = some ch →
     ch.signingScheme ≠ "eip4361" →
     authFetchM opts w url =
       (.error (.jsError ("Unsupported signing scheme: " ++ ch.signingScheme)),
        [.fetchMain url (authHeaderFor opts.token), .parseCall wa])) ∧
    (w2.first = .ok resp2 → resp2.status = 401 →
     resp2.wwwAuthenticate = some wa2 → jsTruthyS (some wa2) = true →
     parseWWWAuthenticateChallenge wa2 = some ch2 →
     ch2.signingScheme ≠ "eip4361" →
     fetchWithOAuthM address tok w2 url2 =
       (.error (.jsError ("Unsupported signing scheme: " ++ ch2.signingScheme)),
        [.fetchMain url2 (authHeaderFor tok), .parseCall wa2])) := by
  constructor
  · intro hf h401 hwa hwt hch hscheme
    simp [authFetchM, hf, h401, hwa, hwt, hch, hscheme]
  · intro hf h401 hwa hwt hch hscheme
    simp [fetchWithOAuthM, hf, h401, hwa, hwt, hch, hscheme]

/-- Claim C6 witness: a concrete challenge with
`signing_scheme="unknownscheme"` makes both orchestrators fail with the
`Unsupported signing scheme` error after only the first fetch and the
parser call. -/
theorem C6_witness :
    authFetchM optsHappy wScheme "https://s/r" =
      (.error (.jsError "Unsupported signing scheme: unknownscheme"),
       [.fetchMain "https://s/r" none, .parseCall waScheme]) ∧
    fetchWithOAuthM "0xA" none wScheme "https://s/r" =
      (.error (.jsError "Unsupported signing scheme: unknownscheme"),
       [.fetchMain "https://s/r" none, .parseCall waScheme]) := by
  have h := C6_unsupported_scheme_fails optsHappy "0xA" none wScheme wScheme
    "https://s/r" "https://s/r"
    { status := 401, wwwAuthenticate := some waScheme, body := none }
    { status := 401, wwwAuthenticate := some waScheme, body := none }
    waScheme waScheme
    { realm := "r", scope := "a", tokenUri := "t", chainId := some 1,
      signingScheme := "unknownscheme" }
    { realm := "r", scope := "a", tokenUri := "t", chainId := some 1,
      signingScheme := "unknownscheme" }
  exact ⟨h.1 rfl rfl rfl (by decide) (by decide) (by decide),
    h.2 rfl rfl rfl (by decide) (by decide) (by decide)⟩

/-! ## Lemmas about first-occurrence substring replacement -/

theorem asString_data (s : String) : s.data.asString = s := rfl

theorem dataOfAsString (l : List Char) : l.asString.data = l := rfl

theorem leadsWith_append_self (l t : List Char) : leadsWith l (l ++ t) = true := by
  induction l with
  | nil => rfl
  | cons c cs ih => simp [leadsWith, ih]

theorem hasSub_false_iff (l pat : List Char) :
    hasSub l pat = false ↔
      ∀ n, n ≤ l.length → leadsWith pat (l.drop n) = false := by
  unfold hasSub
  constructor
  · intro h n hn
    by_contra hc
    rw [Bool.not_eq_false] at hc
    have : (List.range (l.length + 1)).any
        (fun n => leadsWith pat (l.drop n)) = true :=
      List.any_eq_true.mpr ⟨n, List.mem_range.mpr (by omega), hc⟩
    rw [h] at this
    exact Bool.noConfusion this
  · intro h
    rw [← Bool.not_eq_true, List.any_eq_true]
    rintro ⟨n, hn, hp⟩
    rw [List.mem_range] at hn
    rw [h n (by omega)] at hp
    exact Bool.noConfusion hp

theorem replaceFirstL_no_occurrence {l pat repl : List Char} (hne : pat ≠ [])
    (h : hasSub l pat = false) : replaceFirstL l pat repl = l := by
  induction l with
  | nil =>
    have hpe : pat.isEmpty = false := by
      cases pat with
      | nil => exact absurd rfl hne
      | cons p ps => rfl
    simp [replaceFirstL, hpe]
  | cons c rest ih =>
    have h0 : leadsWith pat (c :: rest) = false := by
      simpa using (hasSub_false_iff _ _).mp h 0 (Nat.zero_le _)
    have hr : hasSub rest pat = false := by
      rw [hasSub_false_iff]
      intro n hn
      have := (hasSub_false_iff _ _).mp h (n + 1) (by simpa using hn)
      simpa using this
    simp [replaceFirstL, h0, ih hr]

theorem replaceFirstL_cons_of_not_leads {c : Char} {rest pat repl : List Char}
    (h : leadsWith pat (c :: rest) = false) :
    replaceFirstL (c :: rest) pat repl = c :: replaceFirstL rest pat repl := by
  simp [replaceFirstL, h]

theorem replaceFirstL_first_occurrence {pat : List Char} (repl : List Char)
    (hne : pat ≠ []) :
    ∀ a b : List Char,
      (∀ n, n < a.length → leadsWith pat ((a ++ pat ++ b).drop n) = false) →
      replaceFirstL (a ++ pat ++ b) pat repl = a ++ repl ++ b := by
  intro a
  induction a with
  | nil =>
    intro b _
    cases pat with
    | nil => exact absurd rfl hne
    | cons p ps =>
      have hpre := leadsWith_append_self (p :: ps) b
      have hdrop := List.drop_left (p :: ps) b
      simp only [List.nil_append, List.cons_append] at hpre hdrop ⊢
      rw [replaceFirstL, if_pos (by simpa using hpre)]
      simp [hdrop]
  | cons c a' ih =>
    intro b hmin
    have h0 : leadsWith pat (c :: (a' ++ pat ++ b)) = false := by
      simpa using hmin 0 (by simp)
    have hmin' : ∀ n, n < a'.length →
        leadsWith pat ((a' ++ pat ++ b).drop n) = false := by
      intro n hn
      have := hmin (n + 1) (by simpa using Nat.succ_lt_succ hn)
      simpa using this
    have hshape : (c :: a') ++ pat ++ b = c :: (a' ++ pat ++ b) := by simp
    rw [hshape, replaceFirstL_cons_of_not_leads h0, ih b hmin']
    simp

/-- Claim C5 counterexample: the claim fails on the app's `fetchNonce`
(part_001 lines 92-96): for a token URI not containing `"/token"` the
nonce URL is the URI with `"/nonce"` appended, not the URI unchanged. -/
theorem C5_counterexample :
    hasSub "https://a/auth".data "/token".data = false ∧
    nonceUrlApp "https://a/auth" = "https://a/auth/nonce" ∧
    nonceUrlApp "https://a/auth" ≠ "https://a/auth" := by
  refine ⟨by decide, by decide, by decide⟩

/-- Claim C5 amended: the package `fetchNonce` derives the nonce URL by
replacing the first occurrence of `"/token"` with `"/nonce"` and leaves
a URI without `"/token"` unchanged (no up-front rejection).  The app's
`fetchNonce` instead deletes the first occurrence of `"/token"` and
appends `"/nonce"` at the end; when `"/token"` is absent this yields
the URI with `"/nonce"` appended rather than the URI unchanged. -/
theorem C5_amended_nonce_url (u : String) (a b : List Char) :
    (hasSub u.data "/token".data = false → nonceUrlPkg u = u) ∧
    ((∀ n, n < a.length →
        leadsWith ("/token".data) ((a ++ "/token".data ++ b).drop n) = false) →
      nonceUrlPkg (a ++ "/token".data ++ b).asString =
        (a ++ "/nonce".data ++ b).asString) ∧
    (hasSub u.data "/token".data = false → nonceUrlApp u = u ++ "/nonce") ∧
    ((∀ n, n < a.length →
        leadsWith ("/token".data) ((a ++ "/token".data ++ b).drop n) = false) →
      nonceUrlApp (a ++ "/token".data ++ b).asString =
        (a ++ b ++ "/nonce".data).asString) := by
  refine ⟨?_, ?_, ?_, ?_⟩
  · intro h
    unfold nonceUrlPkg
    rw [replaceFirstL_no_occurrence (by decide) h, asString_data]
  · intro h
    unfold nonceUrlPkg
    rw [dataOfAsString, replaceFirstL_first_occurrence _ (by decide) a b h]
  · intro h
    unfold nonceUrlApp
    rw [replaceFirstL_no_occurrence (by decide) h]
    rfl
  · intro h
    unfold nonceUrlApp
    rw [dataOfAsString, replaceFirstL_first_occurrence _ (by decide) a b h]
    simp

/-- Claim C5 witness: concrete instances of the amended claim.  For a
URI without `"/token"` the package keeps it unchanged while the app
appends `"/nonce"`; for `"https://s/token/v2"` the package yields
`"https://s/nonce/v2"` while the app yields `"https://s/v2/nonce"`. -/
theorem C5_witness :
    hasSub "https://a/auth".data "/token".data = false ∧
    nonceUrlPkg "https://a/auth" = "https://a/auth" ∧
    nonceUrlPkg ("https://s".data ++ "/token".data ++ "/v2".data).asString =
      ("https://s".data ++ "/nonce".data ++ "/v2".data).asString ∧
    nonceUrlApp "https://a/auth" = "https://a/auth" ++ "/nonce" ∧
    nonceUrlApp ("https://s".data ++ "/token".data ++ "/v2".data).asString =
      ("https://s".data ++ "/v2".data ++ "/nonce".data).asString :=
  ⟨by decide,
   (C5_amended_nonce_url "https://a/auth" "https://s".data "/v2".data).1 (by decide),
   (C5_amended_nonce_url "https://a/auth" "https://s".data "/v2".data).2.1 (by decide),
   (C5_amended_nonce_url "https://a/auth" "https://s".data "/v2".data).2.2.1 (by decide),
   (C5_amended_nonce_url "https://a/auth" "https://s".data "/v2".data).2.2.2 (by decide)⟩

/-- Claim C4 counterexample: the claim fails on `fetchWithOAuth`
(part_001 lines 205-213): a first response with status 403 is not
returned untouched — the orchestrator throws `Request failed: 403`
(while still performing exactly one HTTP call). -/
theorem C4_counterexample :
    fetchWithOAuthM "0xA" none w403 "https://s/r" =
      (.error (.jsError "Request failed: 403"),
       [.fetchMain "https://s/r" none]) := rfl

/-- Claim C4 amended: for every non-401 first response,
`authFetch`/`createAuthFetch` return the response untouched after
exactly one HTTP call, never invoking the parser, nonce client, signer
or exchange client (the trace is the single first fetch).
`fetchWithOAuth` likewise performs exactly one HTTP call and invokes
none of those components, but resolves to the parsed JSON body paired
with the existing token when the response is ok, and throws
`Request failed: <status>` when it is not. -/
theorem C4_amended_non401_passthrough
    (opts : AuthOptions) (address : String) (tok : Option String)
    (w w2 : World) (url url2 : String) (resp resp2 : MainResp) (d : String) :
    (w.first = .ok resp → resp.status ≠ 401 →
      authFetchM opts w url =
        (.ok resp, [.fetchMain url (authHeaderFor opts.token)])) ∧
    (w2.first = .ok resp2 → resp2.status ≠ 401 → respOk resp2.status = true →
      resp2.body = some d →
      fetchWithOAuthM address tok w2 url2 =
        (.ok (d, jsOrS tok ""), [.fetchMain url2 (authHeaderFor tok)])) ∧
    (w2.first = .ok resp2 → resp2.status ≠ 401 → respOk resp2.status = false →
      fetchWithOAuthM address tok w2 url2 =
        (.error (.jsError ("Request failed: " ++ toString resp2.status)),
         [.fetchMain url2 (authHeaderFor tok)])) := by
  refine ⟨?_, ?_, ?_⟩
  · intro hf hs
    simp [authFetchM, hf, hs]
  · intro hf hs hok hd
    simp [fetchWithOAuthM, hf, hs, hok, hd]
  · intro hf hs hok
    simp [fetchWithOAuthM, hf, hs, hok]

/-- Claim C4 witness: on a first 200 response the package orchestrator
returns it untouched with a one-event trace; the app orchestrator
resolves to the parsed body on a 200 and throws on a 403, with
one-event traces. -/
theorem C4_witness :
    authFetchM optsHappy w200 "https://s/r" =
      (.ok { status := 200, wwwAuthenticate := none, body := some "OK" },
       [.fetchMain "https://s/r" none]) ∧
    fetchWithOAuthM "0xA" none w200 "https://s/r" =
      (.ok ("OK", jsOrS none ""), [.fetchMain "https://s/r" none]) ∧
    fetchWithOAuthM "0xA" none w403 "https://s/r" =
      (.error (.jsError ("Request failed: " ++ toString 403)),
       [.fetchMain "https://s/r" none]) := by
  have h200 := C4_amended_non401_passthrough optsHappy "0xA" none w200 w200
    "https://s/r" "https://s/r"
    { status := 200, wwwAuthenticate := none, body := some "OK" }
    { status := 200, wwwAuthenticate := none, body := some "OK" } "OK"
  have h403 := C4_amended_non401_passthrough optsHappy "0xA" none w403 w403
    "https://s/r" "https://s/r"
    { status := 403, wwwAuthenticate := none, body := some "E" }
    { status := 403, wwwAuthenticate := none, body := some "E" } "E"
  exact ⟨h200.1 rfl (by decide), h200.2.1 rfl (by decide) (by decide) rfl,
    h403.2.2 rfl (by decide) (by decide)⟩

/-- Claim C1 counterexample: the claim fails on `fetchWithOAuth`
(part_001 lines 155-166): on a 401 without a `WWW-Authenticate` header
it raises an error instead of returning the original 401 response. -/
theorem C1_counterexample :
    fetchWithOAuthM "0xA" none w401NoWA "https://s/r" =
      (.error (.jsError "Missing WWW-Authenticate header in 401 response"),
       [.fetchMain "https://s/r" none]) := rfl

/-- Claim C1 amended: on a first 401 whose `WWW-Authenticate` header is
absent (or falsy) or present but unparseable, `authFetch` and
`createAuthFetch` return the original 401 response unchanged with no
error and no nonce or token-exchange call.  `fetchWithOAuth` likewise
makes no nonce or token-exchange call, but raises
`Missing WWW-Authenticate header in 401 response` when the header is
absent and `Failed to parse WWW-Authenticate challenge` when it is
unparseable, instead of returning the response. -/
theorem C1_amended_non_challenge_401
    (opts : AuthOptions) (address : String) (tok : Option String)
    (w w2 : World) (url url2 : String) (resp resp2 : MainResp)
    (wa wa2 : String) :
    (w.first = .ok resp → resp.status = 401 →
      jsTruthyS resp.wwwAuthenticate = false →
      authFetchM opts w url =
        (.ok resp, [.fetchMain url (authHeaderFor opts.token)])) ∧
    (w.first = .ok resp → resp.status = 401 →
      resp.wwwAuthenticate = some wa → jsTruthyS (some wa) = true →
      parseWWWAuthenticateChallenge wa = none →
      authFetchM opts w url =
        (.ok resp, [.fetchMain url (authHeaderFor opts.token), .parseCall wa])) ∧
    (w2.first = .ok resp2 → resp2.status = 401 →
      jsTruthyS resp2.wwwAuthenticate = false →
      fetchWithOAuthM address tok w2 url2 =
        (.error (.jsError "Missing WWW-Authenticate header in 401 response"),
         [.fetchMain url2 (authHeaderFor tok)])) ∧
    (w2.first = .ok resp2 → resp2.status = 401 →
      resp2.wwwAuthenticate = some wa2 → jsTruthyS (some wa2) = true →
      parseWWWAuthenticateChallenge wa2 = none →
      fetchWithOAuthM address tok w2 url2 =
        (.error (.jsError "Failed to parse WWW-Authenticate challenge"),
         [.fetchMain url2 (authHeaderFor tok), .parseCall wa2])) := by
  refine ⟨?_, ?_, ?_, ?_⟩
  · intro hf hs hwt
    simp [authFetchM, hf, hs, hwt]
  · intro hf hs hwa hwt hch
    simp [authFetchM, hf, hs, hwa, hwt, hch]
  · intro hf hs hwt
    simp [fetchWithOAuthM, hf, hs, hwt]
  · intro hf hs hwa hwt hch
    simp [fetchWithOAuthM, hf, hs, hwa, hwt, hch]

/-- Claim C1 witness: on a 401 without (or with an unparseable)
`WWW-Authenticate` header the package orchestrator returns the original
response with no nonce or exchange event, while the app orchestrator
raises its two errors, also with no nonce or exchange event. -/
theorem C1_witness :
    authFetchM optsHappy w401NoWA "https://s/r" =
      (.ok { status := 401, wwwAuthenticate := none, body := none },
       [.fetchMain "https://s/r" none]) ∧
    authFetchM optsHappy w401Bad "https://s/r" =
      (.ok { status := 401, wwwAuthenticate := some waBad, body := none },
       [.fetchMain "https://s/r" none, .parseCall waBad]) ∧
    fetchWithOAuthM "0xA" none w401NoWA "https://s/r" =
      (.error (.jsError "Missing WWW-Authenticate header in 401 response"),
       [.fetchMain "https://s/r" none]) ∧
    fetchWithOAuthM "0xA" none w401Bad "https://s/r" =
      (.error (.jsError "Failed to parse WWW-Authenticate challenge"),
       [.fetchMain "https://s/r" none, .parseCall waBad]) := by
  have hno := C1_amended_non_challenge_401 optsHappy "0xA" none w401NoWA w401NoWA
    "https://s/r" "https://s/r"
    { status := 401, wwwAuthenticate := none, body := none }
    { status := 401, wwwAuthenticate := none, body := none } waBad waBad
  have hbad := C1_amended_non_challenge_401 optsHappy "0xA" none w401Bad w401Bad
    "https://s/r" "https://s/r"
    { status := 401, wwwAuthenticate := some waBad, body := none }
    { status := 401, wwwAuthenticate := some waBad, body := none } waBad waBad
  exact ⟨hno.1 rfl rfl (by decide),
    hbad.2.1 rfl rfl rfl (by decide) (by decide),
    hno.2.2.1 rfl rfl (by decide),
    hbad.2.2.2 rfl rfl rfl (by decide) (by decide)⟩

/-- Claim C2: whenever the token exchange succeeds and an `onToken`
sink was supplied, the package orchestrator's full event trace ends
with the notification (carrying the exchanged `access_token` and the
granted `scope`) immediately followed by the retry request.  The trace
does not mention `w.retry`, so the notification is emitted before the
retry resolves and regardless of the retry's outcome. -/
theorem C2_onToken_before_retry
    (opts : AuthOptions) (w : World) (url : String) (resp : MainResp)
    (wa : String) (ch : OAuthChallenge) (nr : NonceHttpResp) (nval : String)
    (sigv : String) (er : ExchangeHttpResp) (tr : TokenResponse)
    (hcb : opts.hasOnToken = true)
    (hf : w.first = .ok resp) (h401 : resp.status = 401)
    (hwa : resp.wwwAuthenticate = some wa) (hwt : jsTruthyS (some wa) = true)
    (hch : parseWWWAuthenticateChallenge wa = some ch)
    (hscheme : ch.signingScheme = "eip4361")
    (hn : w.nonceHttp = .ok nr) (hnok : respOk nr.status = true)
    (hnv : nr.nonce = some nval)
    (hsig : w.sig = fun _ => .ok sigv)
    (hex : w.exch = .ok er) (heok : respOk er.status = true)
    (htok : er.token = some tr) :
    (authFetchM opts w url).2 =
      [.fetchMain url (authHeaderFor opts.token),
       .parseCall wa,
       .nonceCall (nonceUrlPkg ch.tokenUri),
       .signCall (buildSiweMessagePkg opts.address nval (jsSplitSpace ch.scope)
         url (jsOrI ch.chainId (opts.chainId.getD 1))),
       .exchangeCall ch.tokenUri "eth_signature"
         (buildSiweMessagePkg opts.address nval (jsSplitSpace ch.scope)
           url (jsOrI ch.chainId (opts.chainId.getD 1))) sigv ch.scope,
       .onTokenCall tr.access_token tr.scope,
       .retryCall url (some ("Bearer " ++ tr.access_token))] := by
  cases hr : w.retry with
  | error e =>
    simp [authFetchM, hcb, hf, h401, hwa, hwt, hch, hscheme, hn, hnok, hnv,
      hsig, hex, heok, htok, hr]
  | ok r2 =>
    simp [authFetchM, hcb, hf, h401, hwa, hwt, hch, hscheme, hn, hnok, hnv,
      hsig, hex, heok, htok, hr]

/-- Claim C2 witness: in the happy-path fixture the trace contains the
`onToken` notification with `("T1", "a b")` just before the retry
carrying `Authorization: Bearer T1`. -/
theorem C2_witness :
    (authFetchM optsHappy wHappy "https://s/r").2 =
      [.fetchMain "https://s/r" none,
       .parseCall waGood,
       .nonceCall (nonceUrlPkg "https://s/api/auth/token"),
       .signCall (buildSiweMessagePkg "0xA" "N1" (jsSplitSpace "a b")
         "https://s/r" (jsOrI (some 1) 1)),
       .exchangeCall "https://s/api/auth/token" "eth_signature"
         (buildSiweMessagePkg "0xA" "N1" (jsSplitSpace "a b")
           "https://s/r" (jsOrI (some 1) 1)) "0xSIG" "a b",
       .onTokenCall "T1" "a b",
       .retryCall "https://s/r" (some ("Bearer " ++ "T1"))] :=
  C2_onToken_before_retry optsHappy wHappy "https://s/r" respChallenge waGood
    { realm := "r", scope := "a b", tokenUri := "https://s/api/auth/token",
      chainId := some 1, signingScheme := "eip4361" }
    { status := 200, nonce := some "N1" } "N1" "0xSIG"
    { status := 200, errorJson := .ok none, token := some trGood } trGood
    rfl rfl rfl rfl (by decide) (by decide) rfl rfl (by decide) rfl rfl rfl
    (by decide) rfl

/-- Claim C3 counterexample: the claim fails on `fetchWithOAuth`
(part_001 lines 192-204): when the exchange succeeded and the retried
request completes with status 500, the orchestrator raises
`Request failed after auth: 500` instead of returning the response. -/
theorem C3_counterexample :
    (fetchWithOAuthM "0xA" none wRetry500 "https://s/r").1 =
      .error (.jsError "Request failed after auth: 500") := rfl

/-- Claim C3 amended: after a successful exchange, `authFetch` and
`createAuthFetch` return the completed retry response as the final
result whatever its status.  `fetchWithOAuth` instead throws
`Request failed after auth: <status>` when the completed retry is not
ok, and resolves to the retry's parsed JSON body paired with the new
token (not the raw response) when it is ok. -/
theorem C3_amended_retry_response_returned
    (opts : AuthOptions) (address : String) (tok : Option String)
    (w w2 : World) (url url2 : String) (resp resp2 : MainResp)
    (wa wa2 : String) (ch ch2 : OAuthChallenge) (nr nr2 : NonceHttpResp)
    (nval nval2 : String) (sigv sigv2 : String)
    (er er2 : ExchangeHttpResp) (tr tr2 : TokenResponse)
    (r2 r2b : MainResp) (d : String) :
    (w.first = .ok resp → resp.status = 401 →
     resp.wwwAuthenticate = some wa → jsTruthyS (some wa) = true →
     parseWWWAuthenticateChallenge wa = some ch →
     ch.signingScheme = "eip4361" →
     w.nonceHttp = .ok nr → respOk nr.status = true → nr.nonce = some nval →
     w.sig = (fun _ => .ok sigv) →
     w.exch = .ok er → respOk er.status = true → er.token = some tr →
     w.retry = .ok r2 →
     (authFetchM opts w url).1 = .ok r2) ∧
    (w2.first = .ok resp2 → resp2.status = 401 →
     resp2.wwwAuthenticate = some wa2 → jsTruthyS (some wa2) = true →
     parseWWWAuthenticateChallenge wa2 = some ch2 →
     ch2.signingScheme = "eip4361" →
     w2.nonceHttp = .ok nr2 → respOk nr2.status = true → nr2.nonce = some nval2 →
     w2.sig = (fun _ => .ok sigv2) →
     w2.exch = .ok er2 → respOk er2.status = true → er2.token = some tr2 →
     w2.retry = .ok r2b →
     ((respOk r2b.status = false →
        (fetchWithOAuthM address tok w2 url2).1 =
          .error (.jsError ("Request failed after auth: " ++ toString r2b.status))) ∧
      (respOk r2b.status = true → r2b.body = some d →
        (fetchWithOAuthM address tok w2 url2).1 = .ok (d, tr2.access_token)))) := by
  constructor
  · intro hf h401 hwa hwt hch hscheme hn hnok hnv hsig hex heok htok hr
    simp [authFetchM, hf, h401, hwa, hwt, hch, hscheme, hn, hnok, hnv,
      hsig, hex, heok, htok, hr]
  · intro hf h401 hwa hwt hch hscheme hn hnok hnv hsig hex heok htok hr
    constructor
    · intro hrok
      simp [fetchWithOAuthM, hf, h401, hwa, hwt, hch, hscheme, hn, hnok, hnv,
        hsig, hex, heok, htok, hr, hrok]
    · intro hrok hd
      simp [fetchWithOAuthM, hf, h401, hwa, hwt, hch, hscheme, hn, hnok, hnv,
        hsig, hex, heok, htok, hr, hrok, hd]

/-- Claim C3 witness: with the exchange succeeded, the package
orchestrator returns a completed 500 retry response as the final
result, while the app orchestrator throws on that same retry and
resolves to the parsed body on a 200 retry. -/
theorem C3_witness :
    (authFetchM optsHappy wRetry500 "https://s/r").1 = .ok respRetry500 ∧
    (fetchWithOAuthM "0xA" none wRetry500 "https://s/r").1 =
      .error (.jsError ("Request failed after auth: " ++ toString 500)) ∧
    (fetchWithOAuthM "0xA" none wHappy "https://s/r").1 = .ok ("D", "T1") := by
  have h500 := C3_amended_retry_response_returned optsHappy "0xA" none
    wRetry500 wRetry500 "https://s/r" "https://s/r" respChallenge respChallenge
    waGood waGood
    { realm := "r", scope := "a b", tokenUri := "https://s/api/auth/token",
      chainId := some 1, signingScheme := "eip4361" }
    { realm := "r", scope := "a b", tokenUri := "https://s/api/auth/token",
      chainId := some 1, signingScheme := "eip4361" }
    { status := 200, nonce := some "N1" } { status := 200, nonce := some "N1" }
    "N1" "N1" "0xSIG" "0xSIG"
    { status := 200, errorJson := .ok none, token := some trGood }
    { status := 200, errorJson := .ok none, token := some trGood }
    trGood trGood respRetry500 respRetry500 "D"
  have hok := C3_amended_retry_response_returned optsHappy "0xA" none
    wHappy wHappy "https://s/r" "https://s/r" respChallenge respChallenge
    waGood waGood
    { realm := "r", scope := "a b", tokenUri := "https://s/api/auth/token",
      chainId := some 1, signingScheme := "eip4361" }
    { realm := "r", scope := "a b", tokenUri := "https://s/api/auth/token",
      chainId := some 1, signingScheme := "eip4361" }
    { status := 200, nonce := some "N1" } { status := 200, nonce := some "N1" }
    "N1" "N1" "0xSIG" "0xSIG"
    { status := 200, errorJson := .ok none, token := some trGood }
    { status := 200, errorJson := .ok none, token := some trGood }
    trGood trGood respRetryOk respRetryOk "D"
  refine ⟨?_, ?_, ?_⟩
  · exact h500.1 rfl rfl rfl (by decide) (by decide) (by decide) rfl
      (by decide) rfl rfl rfl (by decide) rfl rfl
  · exact (h500.2 rfl rfl rfl (by decide) (by decide) (by decide) rfl
      (by decide) rfl rfl rfl (by decide) rfl rfl).1 (by decide)
  · exact (hok.2 rfl rfl rfl (by decide) (by decide) (by decide) rfl
      (by decide) rfl rfl rfl (by decide) rfl rfl).2 (by decide) rfl

/-- Trace-shape helper: once the package orchestrator has parsed a
supported challenge and fetched a nonce successfully, its event trace
starts with the first fetch, the parser call, the nonce call and the
signer call on the message built from the split scope; whatever happens
later is some suffix `post`. -/
theorem authFetchM_trace_through_sign
    (opts : AuthOptions) (w : World) (url : String) (resp : MainResp)
    (wa : String) (ch : OAuthChallenge) (nr : NonceHttpResp) (nval : String)
    (hf : w.first = .ok resp) (h401 : resp.status = 401)
    (hwa : resp.wwwAuthenticate = some wa) (hwt : jsTruthyS (some wa) = true)
    (hch : parseWWWAuthenticateChallenge wa = some ch)
    (hscheme : ch.signingScheme = "eip4361")
    (hn : w.nonceHttp = .ok nr) (hnok : respOk nr.status = true)
    (hnv : nr.nonce = some nval) :
    ∃ post, (authFetchM opts w url).2 =
      [.fetchMain url (authHeaderFor opts.token),
       .parseCall wa,
       .nonceCall (nonceUrlPkg ch.tokenUri),
       .signCall (buildSiweMessagePkg opts.address nval (jsSplitSpace ch.scope)
         url (jsOrI ch.chainId (opts.chainId.getD 1)))] ++ post := by
  simp [authFetchM, hf, h401, hwa, hwt, hch, hscheme, hn, hnok, hnv]
  cases hs : w.sig (buildSiweMessagePkg opts.address nval (jsSplitSpace ch.scope)
      url (jsOrI ch.chainId (opts.chainId.getD 1))) with
  | error e => exact ⟨[], by simp [hs]⟩
  | ok sigv =>
    cases hx : w.exch with
    | error e2 =>
      exact ⟨[.exchangeCall ch.tokenUri "eth_signature"
        (buildSiweMessagePkg opts.address nval (jsSplitSpace ch.scope)
          url (jsOrI ch.chainId (opts.chainId.getD 1))) sigv ch.scope],
        by simp [hs, hx]⟩
    | ok er =>
      by_cases he : respOk er.status
      · cases htk : er.token with
        | none =>
          exact ⟨[.exchangeCall ch.tokenUri "eth_signature"
            (buildSiweMessagePkg opts.address nval (jsSplitSpace ch.scope)
              url (jsOrI ch.chainId (opts.chainId.getD 1))) sigv ch.scope],
            by simp [hs, hx, he, htk]⟩
        | some tr =>
          cases hr : w.retry with
          | error e3 =>
            exact ⟨[.exchangeCall ch.tokenUri "eth_signature"
              (buildSiweMessagePkg opts.address nval (jsSplitSpace ch.scope)
                url (jsOrI ch.chainId (opts.chainId.getD 1))) sigv ch.scope] ++
              (if opts.hasOnToken then [.onTokenCall tr.access_token tr.scope] else []) ++
              [.retryCall url (some ("Bearer " ++ tr.access_token))],
              by simp [hs, hx, he, htk, hr]⟩
          | ok r2 =>
            exact ⟨[.exchangeCall ch.tokenUri "eth_signature"
              (buildSiweMessagePkg opts.address nval (jsSplitSpace ch.scope)
                url (jsOrI ch.chainId (opts.chainId.getD 1))) sigv ch.scope] ++
              (if opts.hasOnToken then [.onTokenCall tr.access_token tr.scope] else []) ++
              [.retryCall url (some ("Bearer " ++ tr.access_token))],
              by simp [hs, hx, he, htk, hr]⟩
      · exact ⟨[.exchangeCall ch.tokenUri "eth_signature"
          (buildSiweMessagePkg opts.address nval (jsSplitSpace ch.scope)
            url (jsOrI ch.chainId (opts.chainId.getD 1))) sigv ch.scope],
          by simp [hs, hx, he]⟩

/-- Trace-shape helper for the app orchestrator: up to the signer call,
with the message always built by `buildSiweMessageApp` (chain id 1). -/
theorem fetchWithOAuthM_trace_through_sign
    (address : String) (tok : Option String) (w : World) (url : String)
    (resp : MainResp) (wa : String) (ch : OAuthChallenge)
    (nr : NonceHttpResp) (nval : String)
    (hf : w.first = .ok resp) (h401 : resp.status = 401)
    (hwa : resp.wwwAuthenticate = some wa) (hwt : jsTruthyS (some wa) = true)
    (hch : parseWWWAuthenticateChallenge wa = some ch)
    (hscheme : ch.signingScheme = "eip4361")
    (hn : w.nonceHttp = .ok nr) (hnok : respOk nr.status = true)
    (hnv : nr.nonce = some nval) :
    ∃ post, (fetchWithOAuthM address tok w url).2 =
      [.fetchMain url (authHeaderFor tok),
       .parseCall wa,
       .nonceCall (nonceUrlApp ch.tokenUri),
       .signCall (buildSiweMessageApp address nval (jsSplitSpace ch.scope) url)]
        ++ post := by
  simp [fetchWithOAuthM, hf, h401, hwa, hwt, hch, hscheme, hn, hnok, hnv]
  cases hs : w.sig (buildSiweMessageApp address nval (jsSplitSpace ch.scope) url) with
  | error e => exact ⟨[], by simp [hs]⟩
  | ok sigv =>
    cases hx : w.exch with
    | error e2 =>
      exact ⟨[.exchangeCall ch.tokenUri "eth_signature"
        (buildSiweMessageApp address nval (jsSplitSpace ch.scope) url) sigv ch.scope],
        by simp [hs, hx]⟩
    | ok er =>
      by_cases he : respOk er.status
      · cases htk : er.token with
        | none =>
          exact ⟨[.exchangeCall ch.tokenUri "eth_signature"
            (buildSiweMessageApp address nval (jsSplitSpace ch.scope) url) sigv ch.scope],
            by simp [hs, hx, he, htk]⟩
        | some tr =>
          cases hr : w.retry with
          | error e3 =>
            exact ⟨[.exchangeCall ch.tokenUri "eth_signature"
              (buildSiweMessageApp address nval (jsSplitSpace ch.scope) url) sigv ch.scope,
                .retryCall url (some ("Bearer " ++ tr.access_token))],
              by simp [hs, hx, he, htk, hr]⟩
          | ok r2 =>
            by_cases hro : respOk r2.status
            · cases hb : r2.body with
              | none =>
                exact ⟨[.exchangeCall ch.tokenUri "eth_signature"
                  (buildSiweMessageApp address nval (jsSplitSpace ch.scope) url) sigv ch.scope,
                    .retryCall url (some ("Bearer " ++ tr.access_token))],
                  by simp [hs, hx, he, htk, hr, hro, hb]⟩
              | some d =>
                exact ⟨[.exchangeCall ch.tokenUri "eth_signature"
                  (buildSiweMessageApp address nval (jsSplitSpace ch.scope) url) sigv ch.scope,
                    .retryCall url (some ("Bearer " ++ tr.access_token))],
                  by simp [hs, hx, he, htk, hr, hro, hb]⟩
            · exact ⟨[.exchangeCall ch.tokenUri "eth_signature"
                (buildSiweMessageApp address nval (jsSplitSpace ch.scope) url) sigv ch.scope,
                  .retryCall url (some ("Bearer " ++ tr.access_token))],
                by simp [hs, hx, he, htk, hr, hro]⟩
      · cases hej : er.errorJson with
        | error e4 =>
          exact ⟨[.exchangeCall ch.tokenUri "eth_signature"
            (buildSiweMessageApp address nval (jsSplitSpace ch.scope) url) sigv ch.scope],
            by simp [hs, hx, he, hej]⟩
        | ok ef =>
          exact ⟨[.exchangeCall ch.tokenUri "eth_signature"
            (buildSiweMessageApp address nval (jsSplitSpace ch.scope) url) sigv ch.scope],
            by simp [hs, hx, he, hej]⟩

/-- Claim C9: in the package orchestrator the exchange request carries
the challenge's scope string verbatim (unsplit), while the signed
message's resources are exactly the scope string split on single spaces
and mapped in order to `"urn:oauth:scope:" ++ scope` (empty segments
from repeated spaces included, nothing trimmed or deduplicated). -/
theorem C9_scope_verbatim_resources
    (opts : AuthOptions) (w : World) (url : String) (resp : MainResp)
    (wa : String) (ch : OAuthChallenge) (nr : NonceHttpResp) (nval : String)
    (sigv : String)
    (hf : w.first = .ok resp) (h401 : resp.status = 401)
    (hwa : resp.wwwAuthenticate = some wa) (hwt : jsTruthyS (some wa) = true)
    (hch : parseWWWAuthenticateChallenge wa = some ch)
    (hscheme : ch.signingScheme = "eip4361")
    (hn : w.nonceHttp = .ok nr) (hnok : respOk nr.status = true)
    (hnv : nr.nonce = some nval)
    (hsig : w.sig = fun _ => .ok sigv) :
    (∃ post, (authFetchM opts w url).2 =
      [.fetchMain url (authHeaderFor opts.token),
       .parseCall wa,
       .nonceCall (nonceUrlPkg ch.tokenUri),
       .signCall (buildSiweMessagePkg opts.address nval (jsSplitSpace ch.scope)
         url (jsOrI ch.chainId (opts.chainId.getD 1))),
       .exchangeCall ch.tokenUri "eth_signature"
         (buildSiweMessagePkg opts.address nval (jsSplitSpace ch.scope)
           url (jsOrI ch.chainId (opts.chainId.getD 1))) sigv ch.scope] ++ post) ∧
    (buildSiweMessagePkg opts.address nval (jsSplitSpace ch.scope) url
        (jsOrI ch.chainId (opts.chainId.getD 1))).resources =
      (jsSplitSpace ch.scope).map (fun scope => "urn:oauth:scope:" ++ scope) := by
  refine ⟨?_, rfl⟩
  simp [authFetchM, hf, h401, hwa, hwt, hch, hscheme, hn, hnok, hnv, hsig]
  cases hx : w.exch with
  | error e2 => exact ⟨[], by simp [hx]⟩
  | ok er =>
    by_cases he : respOk er.status
    · cases htk : er.token with
      | none => exact ⟨[], by simp [hx, he, htk]⟩
      | some tr =>
        cases hr : w.retry with
        | error e3 =>
          exact ⟨(if opts.hasOnToken then [.onTokenCall tr.access_token tr.scope] else []) ++
            [.retryCall url (some ("Bearer " ++ tr.access_token))],
            by simp [hx, he, htk, hr]⟩
        | ok r2 =>
          exact ⟨(if opts.hasOnToken then [.onTokenCall tr.access_token tr.scope] else []) ++
            [.retryCall url (some ("Bearer " ++ tr.access_token))],
            by simp [hx, he, htk, hr]⟩
    · exact ⟨[], by simp [hx, he]⟩

/-- Claim C9 witness: with scope `"a b"`, the exchange call carries the
unsplit string `"a b"` while the message resources are
`["urn:oauth:scope:a", "urn:oauth:scope:b"]` in that order; a scope
with a doubled space yields an intermediate empty-scope URN. -/
theorem C9_witness :
    (∃ post, (authFetchM optsHappy wHappy "https://s/r").2 =
      [.fetchMain "https://s/r" none,
       .parseCall waGood,
       .nonceCall (nonceUrlPkg "https://s/api/auth/token"),
       .signCall (buildSiweMessagePkg "0xA" "N1" (jsSplitSpace "a b")
         "https://s/r" (jsOrI (some 1) 1)),
       .exchangeCall "https://s/api/auth/token" "eth_signature"
         (buildSiweMessagePkg "0xA" "N1" (jsSplitSpace "a b")
           "https://s/r" (jsOrI (some 1) 1)) "0xSIG" "a b"] ++ post) ∧
    (buildSiweMessagePkg "0xA" "N1" (jsSplitSpace "a b") "https://s/r"
        (jsOrI (some 1) 1)).resources =
      (jsSplitSpace "a b").map (fun scope => "urn:oauth:scope:" ++ scope) ∧
    (jsSplitSpace "a b").map (fun scope => "urn:oauth:scope:" ++ scope) =
      ["urn:oauth:scope:a", "urn:oauth:scope:b"] ∧
    (jsSplitSpace "a  b").map (fun scope => "urn:oauth:scope:" ++ scope) =
      ["urn:oauth:scope:a", "urn:oauth:scope:", "urn:oauth:scope:b"] := by
  have h := C9_scope_verbatim_resources optsHappy wHappy "https://s/r"
    respChallenge waGood
    { realm := "r", scope := "a b", tokenUri := "https://s/api/auth/token",
      chainId := some 1, signingScheme := "eip4361" }
    { status := 200, nonce := some "N1" } "N1" "0xSIG"
    rfl rfl rfl (by decide) (by decide) rfl rfl (by decide) rfl rfl
  exact ⟨h.1, h.2, by decide, by decide⟩

/-! ### Claim C10 fixtures -/

/-- A challenge header whose `chain_id` is the string `"0"`. -/
def waZero : String :=
  "Bearer realm=\"r\", scope=\"a b\", token_uri=\"https://s/api/auth/token\", chain_id=\"0\""

/-- A challenge header whose `chain_id` is not numeric. -/
def waNaN : String :=
  "Bearer realm=\"r\", scope=\"a b\", token_uri=\"https://s/api/auth/token\", chain_id=\"zz\""

/-- Happy-path world whose challenge carries `chain_id="0"`. -/
def wZero : World :=
  { wHappy with first := .ok { status := 401, wwwAuthenticate := some waZero, body := none } }

/-- Happy-path world whose challenge carries a non-numeric `chain_id`. -/
def wNaN : World :=
  { wHappy with first := .ok { status := 401, wwwAuthenticate := some waNaN, body := none } }

/-- Caller options with an explicit chain id override of `5`. -/
def optsChain5 : AuthOptions :=
  { address := "0xA", chainId := some 5, token := none, hasOnToken := true }

/-- Claim C10: when the parsed challenge's `chainId` is `0` or `NaN`
(both falsy), `authFetch`/`createAuthFetch` build the SIWE message with
the caller-supplied chain id option (destructured with default `1`),
while `fetchWithOAuth` always builds the message through the app's
`buildSiweMessage`, which uses the module constant `CHAIN_ID = 1`
whatever the challenge's `chainId` says. -/
theorem C10_chain_id_fallback
    (opts : AuthOptions) (address : String) (tok : Option String)
    (w w2 : World) (url url2 : String) (resp resp2 : MainResp)
    (wa wa2 : String) (ch ch2 : OAuthChallenge)
    (nr nr2 : NonceHttpResp) (nval nval2 : String) :
    (w.first = .ok resp → resp.status = 401 →
     resp.wwwAuthenticate = some wa → jsTruthyS (some wa) = true →
     parseWWWAuthenticateChallenge wa = some ch →
     ch.signingScheme = "eip4361" →
     w.nonceHttp = .ok nr → respOk nr.status = true → nr.nonce = some nval →
     (ch.chainId = some 0 ∨ ch.chainId = none) →
     ∃ post, (authFetchM opts w url).2 =
       [.fetchMain url (authHeaderFor opts.token),
        .parseCall wa,
        .nonceCall (nonceUrlPkg ch.tokenUri),
        .signCall (buildSiweMessagePkg opts.address nval (jsSplitSpace ch.scope)
          url (opts.chainId.getD 1))] ++ post) ∧
    (w2.first = .ok resp2 → resp2.status = 401 →
     resp2.wwwAuthenticate = some wa2 → jsTruthyS (some wa2) = true →
     parseWWWAuthenticateChallenge wa2 = some ch2 →
     ch2.signingScheme = "eip4361" →
     w2.nonceHttp = .ok nr2 → respOk nr2.status = true → nr2.nonce = some nval2 →
     (∃ post, (fetchWithOAuthM address tok w2 url2).2 =
       [.fetchMain url2 (authHeaderFor tok),
        .parseCall wa2,
        .nonceCall (nonceUrlApp ch2.tokenUri),
        .signCall (buildSiweMessageApp address nval2 (jsSplitSpace ch2.scope) url2)]
         ++ post) ∧
     (buildSiweMessageApp address nval2 (jsSplitSpace ch2.scope) url2).chainId = 1) := by
  constructor
  · intro hf h401 hwa hwt hch hscheme hn hnok hnv hcid
    obtain ⟨post, hp⟩ := authFetchM_trace_through_sign opts w url resp wa ch nr
      nval hf h401 hwa hwt hch hscheme hn hnok hnv
    refine ⟨post, ?_⟩
    rw [hp]
    rcases hcid with h0 | h0 <;> rw [h0] <;> rfl
  · intro hf h401 hwa hwt hch hscheme hn hnok hnv
    exact ⟨fetchWithOAuthM_trace_through_sign address tok w2 url2 resp2 wa2 ch2
      nr2 nval2 hf h401 hwa hwt hch hscheme hn hnok hnv, rfl⟩

/-- Claim C10 witness: with `chain_id="0"` and a caller override of
`5`, the package orchestrator signs a message built with chain id `5`;
with a non-numeric `chain_id` and no override it signs with the default
`1`; the app orchestrator signs with chain id `1` on the same good
challenge. -/
theorem C10_witness :
    (∃ post, (authFetchM optsChain5 wZero "https://s/r").2 =
      [.fetchMain "https://s/r" none,
       .parseCall waZero,
       .nonceCall (nonceUrlPkg "https://s/api/auth/token"),
       .signCall (buildSiweMessagePkg "0xA" "N1" (jsSplitSpace "a b")
         "https://s/r" ((some (5 : Int)).getD 1))] ++ post) ∧
    (∃ post, (authFetchM optsHappy wNaN "https://s/r").2 =
      [.fetchMain "https://s/r" none,
       .parseCall waNaN,
       .nonceCall (nonceUrlPkg "https://s/api/auth/token"),
       .signCall (buildSiweMessagePkg "0xA" "N1" (jsSplitSpace "a b")
         "https://s/r" ((none : Option Int).getD 1))] ++ post) ∧
    (∃ post, (fetchWithOAuthM "0xA" none wHappy "https://s/r").2 =
      [.fetchMain "https://s/r" none,
       .parseCall waGood,
       .nonceCall (nonceUrlApp "https://s/api/auth/token"),
       .signCall (buildSiweMessageApp "0xA" "N1" (jsSplitSpace "a b")
         "https://s/r")] ++ post) ∧
    (buildSiweMessageApp "0xA" "N1" (jsSplitSpace "a b") "https://s/r").chainId = 1 := by
  have hz := C10_chain_id_fallback optsChain5 "0xA" none wZero wHappy
    "https://s/r" "https://s/r"
    { status := 401, wwwAuthenticate := some waZero, body := none } respChallenge
    waZero waGood
    { realm := "r", scope := "a b", tokenUri := "https://s/api/auth/token",
      chainId := some 0, signingScheme := "eip4361" }
    { realm := "r", scope := "a b", tokenUri := "https://s/api/auth/token",
      chainId := some 1, signingScheme := "eip4361" }
    { status := 200, nonce := some "N1" } { status := 200, nonce := some "N1" }
    "N1" "N1"
  have hnan := C10_chain_id_fallback optsHappy "0xA" none wNaN wHappy
    "https://s/r" "https://s/r"
    { status := 401, wwwAuthenticate := some waNaN, body := none } respChallenge
    waNaN waGood
    { realm := "r", scope := "a b", tokenUri := "https://s/api/auth/token",
      chainId := none, signingScheme := "eip4361" }
    { realm := "r", scope := "a b", tokenUri := "https://s/api/auth/token",
      chainId := some 1, signingScheme := "eip4361" }
    { status := 200, nonce := some "N1" } { status := 200, nonce := some "N1" }
    "N1" "N1"
  refine ⟨?_, ?_, ?_, ?_⟩
  · exact hz.1 rfl rfl rfl (by decide) (by decide) rfl rfl (by decide) rfl
      (Or.inl rfl)
  · exact hnan.1 rfl rfl rfl (by decide) (by decide) rfl rfl (by decide) rfl
      (Or.inr rfl)
  · exact (hz.2 rfl rfl rfl (by decide) (by decide) rfl rfl (by decide) rfl).1
  · exact (hz.2 rfl rfl rfl (by decide) (by decide) rfl rfl (by decide) rfl).2

end SiweAuth
